import Mathlib

/-!
Verification of the core pipeline of the agentic-honeypot repository:
intelligence extraction and phone normalization
(`app/core/intelligence_aggregator.py`), the two-tier scam detector
(`app/core/scam_detector.py`), session state updates
(`app/core/session_manager.py`, `app/api/routes.py`), the strategy
planner (`app/agents/strategy_agent.py`), the response safety gate
(`app/agents/safety_guard.py`) and the idempotent report dispatcher
(`app/services/callback_service.py`).

Pure string/keyword logic is embedded directly.  Calls to external
services (the Groq LLM, the collector HTTP endpoint) and regex searches
are modelled as explicit oracle parameters: the embedded functions are
quantified over every possible answer of those collaborators, exactly as
the Python code is at runtime.
-/

namespace Honeypot

set_option maxRecDepth 16384

/-- `cand` starts with the character list `pat`. -/
def leadsWith : List Char → List Char → Bool
  | _, [] => true
  | [], _ :: _ => false
  | c :: cs, p :: ps => c = p ∧ leadsWith cs ps

/-- `pat` occurs contiguously inside `hay`. -/
def occursWithin (hay pat : List Char) : Bool :=
  leadsWith hay pat ||
    match hay with
    | [] => false
    | _ :: cs => occursWithin cs pat

/-- `needle` occurs as a contiguous substring of `haystack`
(the embedding of Python's `needle in haystack` on strings). -/
def containsSubstr (haystack needle : String) : Bool :=
  occursWithin haystack.toList needle.toList

/-- ASCII lowercasing of a string (Python `str.lower()` on the ASCII
texts handled by this code base). -/
def lowerStr (s : String) : String :=
  String.mk (s.toList.map Char.toLower)

/-- Some keyword of `keys` occurs in `text`
(Python `any(k in text for k in keys)`). -/
def containsAny (text : String) (keys : List String) : Bool :=
  keys.any (fun k => containsSubstr text k)

/-- A conversation message (`app/models/session_state.py`, class `Message`). -/
structure Message where
  sender : String
  text : String
  timestamp : String
deriving DecidableEq, Repr

/-- Cumulative extracted intelligence
(`app/models/intelligence.py`, class `ExtractedIntelligence`). -/
structure ExtractedIntelligence where
  bankAccounts : List String := []
  upiIds : List String := []
  phishingLinks : List String := []
  phoneNumbers : List String := []
  suspiciousKeywords : List String := []
deriving DecidableEq, Repr

/-- Per-conversation session state
(`app/models/session_state.py`, class `SessionState`); the two datetime
fields are modelled as abstract tick counters. -/
structure SessionState where
  sessionId : String
  conversationHistory : List Message := []
  extractedIntelligence : ExtractedIntelligence := {}
  scamDetected : Bool := false
  scamConfidence : ℚ := 0
  totalMessagesExchanged : ℕ := 0
  agentNotes : List String := []
  conversationEnded : Bool := false
  callbackSent : Bool := false
  lastUpdated : ℕ := 0
deriving DecidableEq, Repr

/-- Configuration values consumed by the core (`app/config.py`). -/
structure Config where
  minMessagesForCallback : ℕ := 5
  maxMessagesPerSession : ℕ := 50
  scamDetectionConfidenceThreshold : ℚ := 7/10
  conversationEndKeywords : List String :=
    ["bye", "goodbye", "thank you", "thanks", "done", "finished"]
  useLLMForConversationEnd : Bool := true
deriving Repr

/-! ## Phone normalization (`IntelligenceAggregator.extract_intelligence`,
`app/core/intelligence_aggregator.py` lines 37-52) -/

/-- Characters removed by `re.sub(r'[\s\-\(\)]', '', num)`:
whitespace, hyphens and parentheses. -/
def isPhoneSeparator (c : Char) : Bool :=
  c = ' ' ∨ c = '\t' ∨ c = '\n' ∨ c = '\r' ∨ c = '\x0b' ∨ c = '\x0c' ∨
  c = '-' ∨ c = '(' ∨ c = ')'

/-- Step 1 of phone normalization: strip whitespace, hyphens, parentheses. -/
def cleanPhone (num : List Char) : List Char :=
  num.filter (fun c => ¬ isPhoneSeparator c)

/-- Step 2 of phone normalization: strip a leading `+91`; else a leading
`91` when the length is 12; else a leading `0` when the length is 11. -/
def stripCountryCode (s : List Char) : List Char :=
  if leadsWith s ['+', '9', '1'] then s.drop 3
  else if leadsWith s ['9', '1'] ∧ s.length = 12 then s.drop 2
  else if leadsWith s ['0'] ∧ s.length = 11 then s.drop 1
  else s

/-- First character of a phone candidate lies in `'6789'`
(Python `cleaned[0] in '6789'`). -/
def leadDigitOk : List Char → Bool
  | c :: _ => c = '6' ∨ c = '7' ∨ c = '8' ∨ c = '9'
  | [] => false

/-- Full phone normalization of one regex match, as performed inline in
`extract_intelligence`: clean, strip the country code, keep only a
10-character remainder starting in 6-9, emit `+91` + remainder;
anything else is silently dropped (`none`). -/
def normalize_phone (num : String) : Option String :=
  let cleaned := stripCountryCode (cleanPhone num.toList)
  if cleaned.length = 10 ∧ leadDigitOk cleaned then
    some (String.mk ('+' :: '9' :: '1' :: cleaned))
  else
    none

/-! ## Keyword lists (`app/utils/keyword_lists.py`, `app/utils/prompts.py`) -/

/-- `ScamKeywords.SCAM_KEYWORDS`. -/
def SCAM_KEYWORDS : List String :=
  ["verify immediately", "account blocked", "suspended",
   "click here", "verify now", "urgent action required",
   "your account", "will be blocked", "avoid suspension",
   "share your", "send otp", "verify your identity",
   "winning prize", "congratulations", "claim now",
   "free money", "lottery winner", "inheritance",
   "tax refund", "government benefit"]

/-- `ScamKeywords.SUSPICIOUS_KEYWORDS`. -/
def SUSPICIOUS_KEYWORDS : List String :=
  ["urgent", "verify", "blocked", "suspended", "immediately",
   "click here", "verify now", "account", "upi", "otp",
   "share", "send", "provide", "winning", "prize", "free"]

/-- `ScamKeywords.REWARD_SCAM_KEYWORDS`. -/
def REWARD_SCAM_KEYWORDS : List String :=
  ["won a prize", "won cash", "cash prize", "you have won", "you won",
   "lottery", "congratulations", "claim your prize", "free money",
   "cash reward", "reward amount"]

/-- `StrategyAgentPrompts.ACTIVE_SCAM_KEYWORDS` (`app/utils/prompts.py`). -/
def ACTIVE_SCAM_KEYWORDS : List String :=
  ["verify", "verify immediately", "blocked", "suspended", "share",
   "send", "provide", "click", "link", "upi", "account", "urgent",
   "immediately", "now", "asap", "required", "must", "need to"]

/-- `ForbiddenPhrases.FORBIDDEN` (`app/utils/prompts.py`). -/
def FORBIDDEN : List String :=
  ["I am an AI", "I\x27m a bot", "I\x27m an AI", "detection system",
   "honeypot", "I\x27m detecting", "I\x27m analyzing", "intelligence",
   "gathered intelligence", "extracted", "confidence score", "rule-based",
   "scam detection", "I\x27m a system", "automated", "algorithm"]

/-- `ForbiddenPhrases.META_PHRASES` (`app/utils/prompts.py`). -/
def META_PHRASES : List String :=
  ["we\x27ve already", "we have gathered", "we extracted", "our system",
   "the system", "detection", "analysis"]

/-- `ProhibitedPhrases.PROHIBITED_RESPONSES` (`app/utils/keyword_lists.py`). -/
def PROHIBITED_RESPONSES : List String :=
  ["I am an AI", "I\x27m a bot", "detection system", "honeypot",
   "I\x27m detecting"]

/-- `ProhibitedPhrases.PROHIBITED_ACTIONS` (`app/utils/keyword_lists.py`). -/
def PROHIBITED_ACTIONS : List String :=
  ["impersonate", "pretend to be", "act as", "illegal", "harass",
   "threaten"]

/-! ## Intelligence extraction
(`app/core/intelligence_aggregator.py`, `IntelligenceAggregator.extract_intelligence`)

The four `re.findall` pattern matchers (`BANK_ACCOUNT`, `UPI_ID`,
`PHONE_NUMBER`, `URL`) are modelled as an oracle producing, for a text,
the list of raw regex matches; everything downstream of the regexes is
embedded concretely. -/

/-- The regex match lists used by the extractor, abstracted. -/
structure RegexFindOracles where
  bankMatches : String → List String
  upiMatches : String → List String
  phoneMatches : String → List String
  urlMatches : String → List String

/-- `re.sub(r'[-.\s]', '', acc)` applied to a raw bank-account match. -/
def cleanBank (acc : String) : String :=
  String.mk (acc.toList.filter (fun c =>
    ¬ (c = '-' ∨ c = '.' ∨ c = ' ' ∨ c = '\t' ∨ c = '\n' ∨ c = '\r' ∨
       c = '\x0b' ∨ c = '\x0c')))

/-- The last `n` elements of a list (Python `l[-n:]`). -/
def lastN (n : ℕ) (l : List α) : List α :=
  l.drop (l.length - n)

/-- `IntelligenceAggregator.extract_intelligence`: pattern extraction on
the current message, the same extraction on the last 5 history entries
(keywords are scanned on the current message only), then
`list(set(...))` deduplication of every field (modelled as `List.dedup`,
which keeps one representative per element). -/
def extract_intelligence (o : RegexFindOracles) (message : Message)
    (conversation_history : List Message) : ExtractedIntelligence :=
  let text := message.text
  let histMsgs := lastN 5 conversation_history
  let banks := (o.bankMatches text).map cleanBank ++
    histMsgs.flatMap (fun m => (o.bankMatches m.text).map cleanBank)
  let upis := o.upiMatches text ++
    histMsgs.flatMap (fun m => o.upiMatches m.text)
  let phones := (o.phoneMatches text).filterMap normalize_phone ++
    histMsgs.flatMap (fun m => (o.phoneMatches m.text).filterMap normalize_phone)
  let urls := o.urlMatches text ++
    histMsgs.flatMap (fun m => o.urlMatches m.text)
  let kws := SUSPICIOUS_KEYWORDS.filter
    (fun k => containsSubstr (lowerStr text) k)
  { bankAccounts := banks.dedup
    upiIds := upis.dedup
    phoneNumbers := phones.dedup
    phishingLinks := urls.dedup
    suspiciousKeywords := kws.dedup }

/-! ## Session updates (`app/core/session_manager.py`, `app/api/routes.py`) -/

/-- The intelligence-merging step of `SessionManager.update_session`
(lines 49-79): extend every field, then `list(set(...))` it. -/
def mergeIntelligence (stored incoming : ExtractedIntelligence) :
    ExtractedIntelligence :=
  { bankAccounts := (stored.bankAccounts ++ incoming.bankAccounts).dedup
    upiIds := (stored.upiIds ++ incoming.upiIds).dedup
    phishingLinks := (stored.phishingLinks ++ incoming.phishingLinks).dedup
    phoneNumbers := (stored.phoneNumbers ++ incoming.phoneNumbers).dedup
    suspiciousKeywords :=
      (stored.suspiciousKeywords ++ incoming.suspiciousKeywords).dedup }

/-- `SessionManager.update_session` acting on the session it mutates
(the `get_or_create_session` dictionary indirection is dropped; `now` is
the clock read by `datetime.now()`). -/
def update_session (session : SessionState) (new_message : Message)
    (now : ℕ) (scam_detected : Option Bool) (scam_confidence : Option ℚ)
    (intelligence : Option ExtractedIntelligence) : SessionState :=
  let session := { session with
    conversationHistory := session.conversationHistory ++ [new_message]
    totalMessagesExchanged := session.totalMessagesExchanged + 1
    lastUpdated := now }
  let session := match scam_detected with
    | some b => { session with scamDetected := b }
    | none => session
  let session := match scam_confidence with
    | some c => { session with scamConfidence := c }
    | none => session
  match intelligence with
  | some e => { session with
      extractedIntelligence := mergeIntelligence session.extractedIntelligence e }
  | none => session

/-- `routes.process_message` lines 76-78: `if request.conversationHistory:
session.conversationHistory = request.conversationHistory` — a non-empty
request history wholesale replaces the stored one. -/
def routes_sync_history (session : SessionState)
    (requestHistory : List Message) : SessionState :=
  if requestHistory.isEmpty then session
  else { session with conversationHistory := requestHistory }

/-- The session mutations of one `routes.process_message` request up to
and including the `update_session` call (lines 74-92): history sync from
the request, then append of the inbound message with the verdict. -/
def routes_session_update (session : SessionState)
    (requestHistory : List Message) (message : Message) (now : ℕ)
    (scam_detected : Bool) (scam_confidence : ℚ) : SessionState :=
  update_session (routes_sync_history session requestHistory) message now
    (some scam_detected) (some scam_confidence) none

/-- Prior history `old` survives in order at the front of `new`. -/
def historyPreserved (old new : List Message) : Prop :=
  new.take old.length = old

/-! ## Report dispatch (`app/services/callback_service.py`,
`CallbackService.send_callback`)

The collector's answer to the POST is an oracle; the agent-notes
generation (an LLM collaborator with a deterministic fallback) does not
influence the control flow modelled here. -/

/-- Outcome of the outbound POST to the collector. -/
inductive CollectorResponse
  | status (code : ℕ)
  | transportError
deriving DecidableEq, Repr

/-- Result of one `send_callback` invocation: the returned boolean, the
new `sent_callbacks` set, the (possibly) mutated session, and how many
outbound network calls the invocation performed. -/
structure CallbackSendResult where
  success : Bool
  sentCallbacks : List String
  session : SessionState
  networkCalls : ℕ
deriving Repr

/-- `CallbackService.send_callback`: an already-sent session id returns
success immediately with no network call; otherwise one POST is made,
and only a 200/201 response marks the id as sent and sets
`session.callbackSent`. -/
def send_callback (sent_callbacks : List String) (session : SessionState)
    (response : CollectorResponse) : CallbackSendResult :=
  if session.sessionId ∈ sent_callbacks then
    ⟨true, sent_callbacks, session, 0⟩
  else
    match response with
    | .status code =>
        if code = 200 ∨ code = 201 then
          ⟨true, session.sessionId :: sent_callbacks,
            { session with callbackSent := true }, 1⟩
        else
          ⟨false, sent_callbacks, session, 1⟩
    | .transportError => ⟨false, sent_callbacks, session, 1⟩

/-! ## Scam detection (`app/core/scam_detector.py`)

The regex `search` checks of the rule scorer are an oracle (each Bool
field answers "does some pattern of that family match this text", the
`ℕ` field counts matching `URGENCY_PATTERNS`); the keyword-substring
checks are embedded concretely.  Python floats are modelled as exact
rationals.  The human-readable audit strings (`final_decision_reason`,
the evidence list) are not modelled. -/

/-- Regex answers for the rule-based scorer on the lowercased text. -/
structure RuleOracles where
  urgencyHits : String → ℕ
  upiFound : String → Bool
  phoneFound : String → Bool
  bankingFound : String → Bool
  phishingFound : String → Bool
  sensitiveFound : String → Bool

/-- `ScamDetector._quick_check`. -/
def quick_check (text : String) : Bool :=
  containsAny (lowerStr text) ["verify", "blocked", "urgent", "suspended", "upi"]

/-- Which scoring triggers fired for a message+history, as computed by
`_rule_based_detection` before any arithmetic. -/
structure RuleMatches where
  urgencyHits : ℕ
  keywordHits : ℕ
  rewardFound : Bool
  rewardContact : Bool
  bankingFound : Bool
  phishingFound : Bool
  sensitiveFound : Bool
  historyHits : ℕ
deriving DecidableEq, Repr

/-- The triggers of `_rule_based_detection` for a concrete message. -/
def ruleMatchesOf (o : RuleOracles) (message : Message)
    (conversation_history : List Message) : RuleMatches :=
  let text := lowerStr message.text
  { urgencyHits := o.urgencyHits text
    keywordHits := (SCAM_KEYWORDS.filter (fun k => containsSubstr text k)).length
    rewardFound := REWARD_SCAM_KEYWORDS.any (fun k => containsSubstr text k)
    rewardContact := o.upiFound text || o.phoneFound text
    bankingFound := o.bankingFound text
    phishingFound := o.phishingFound text
    sensitiveFound := o.sensitiveFound text
    historyHits :=
      ((lastN 3 conversation_history).filter (fun m => quick_check m.text)).length }

/-- The additive rule score of `_rule_based_detection` (lines 130-206):
urgency at 0.15 each capped at 0.4, scam keywords at 0.2 each capped at
0.4, a flat 0.4 for the first reward keyword plus 0.3 when combined with
a UPI/phone match, 0.1 banking, 0.3 phishing, 0.2 sensitive-info, 0.1
per quick-check hit among the last 3 history messages, clamped to 1. -/
def rule_score (m : RuleMatches) : ℚ :=
  let score :=
    min ((m.urgencyHits : ℚ) * (15/100)) (4/10) +
    min ((m.keywordHits : ℚ) * (2/10)) (4/10) +
    (if m.rewardFound then 4/10 else 0) +
    (if m.rewardFound ∧ m.rewardContact then 3/10 else 0) +
    (if m.bankingFound then 1/10 else 0) +
    (if m.phishingFound then 3/10 else 0) +
    (if m.sensitiveFound then 2/10 else 0) +
    (m.historyHits : ℚ) * (1/10)
  min score 1

/-- A validated LLM classification (`_llm_detect_scam`'s non-None
return value, after clamping and truncation). -/
structure LLMVerdict where
  is_scam : Bool
  confidence : ℚ
  reason : String
deriving DecidableEq, Repr

/-- `max(0.0, min(1.0, c))`. -/
def clamp01 (c : ℚ) : ℚ := max 0 (min 1 c)

/-- Truncation of the LLM reason to 200 characters
(`_llm_detect_scam` lines 294-295). -/
def truncateReason (r : String) : String :=
  if r.length > 200 then String.mk (r.toList.take 197) ++ "..." else r

/-- Every possible outcome of the Groq call inside `_llm_detect_scam`,
as seen by its validation code. -/
inductive LLMScamResponse
  | apiError
  | badJson
  | nonDict
  | missingRequiredField
  | isScamNotBool
  | confidenceNotNumber
  | valid (is_scam : Bool) (confidence : ℚ) (reason : String)
deriving DecidableEq, Repr

/-- Is this outcome anything other than a well-formed verdict? -/
def LLMScamResponse.isDegenerate : LLMScamResponse → Bool
  | .valid _ _ _ => false
  | _ => true

/-- `ScamDetector._llm_detect_scam`: a `JSONDecodeError` and every
structure/type-validation failure return `None`; any other exception of
the Groq call is re-raised (`Except.error`); a well-formed dict comes
back with clamped confidence and truncated reason. -/
def llm_detect_scam : LLMScamResponse → Except Unit (Option LLMVerdict)
  | .apiError => .error ()
  | .badJson => .ok none
  | .nonDict => .ok none
  | .missingRequiredField => .ok none
  | .isScamNotBool => .ok none
  | .confidenceNotNumber => .ok none
  | .valid b c r => .ok (some ⟨b, clamp01 c, truncateReason r⟩)

/-- The detection verdict (`ScamDetectionResult`), audit strings
omitted. -/
structure ScamDetectionResult where
  is_scam : Bool
  confidence : ℚ
  llm_result : Option LLMVerdict
  rule_based_fallback : Bool
deriving DecidableEq, Repr

/-- `ScamDetector._rule_based_detection`. -/
def rule_based_detection (o : RuleOracles) (cfg : Config) (message : Message)
    (conversation_history : List Message) : ScamDetectionResult :=
  let score := rule_score (ruleMatchesOf o message conversation_history)
  { is_scam := decide (cfg.scamDetectionConfidenceThreshold ≤ score)
    confidence := score
    llm_result := none
    rule_based_fallback := true }

/-- `ScamDetector.detect_scam`: LLM-first when a Groq client is
configured, with fallback to the rule scorer whenever the LLM call
errors or its output fails validation. -/
def detect_scam (groqConfigured : Bool) (llmResponse : LLMScamResponse)
    (o : RuleOracles) (cfg : Config) (message : Message)
    (conversation_history : List Message) : ScamDetectionResult :=
  if groqConfigured then
    match llm_detect_scam llmResponse with
    | .ok (some r) =>
        let confidence := clamp01 r.confidence
        { is_scam := decide (cfg.scamDetectionConfidenceThreshold ≤ confidence)
          confidence := confidence
          llm_result := some r
          rule_based_fallback := false }
    | .ok none => rule_based_detection o cfg message conversation_history
    | .error _ => rule_based_detection o cfg message conversation_history
  else
    rule_based_detection o cfg message conversation_history

/-! ## Strategy planning (`app/agents/strategy_agent.py`)

The Groq end-of-conversation detector is an oracle: unavailable client,
a raised API error, or a YES/NO answer.  The session argument of
`_llm_detect_conversation_end` only feeds the prompt text, so it does
not appear in the embedding. -/

/-- `ConversationGoal` (`app/models/strategy.py`). -/
inductive ConversationGoal
  | CLARIFY
  | DELAY
  | ESCALATE
  | WRAP_UP
  | CONTINUE
deriving DecidableEq, Repr

/-- `StrategyDecision` (`app/models/strategy.py`); the ad hoc `context`
dict only ever carries the goal value again, so it is omitted. -/
structure StrategyDecision where
  should_engage : Bool
  goal : ConversationGoal
  reasoning : String
deriving DecidableEq, Repr

/-- Outcome of the Groq conversation-end call. -/
inductive EndLLM
  | noClient
  | raises
  | answer (yes : Bool)
deriving DecidableEq, Repr

/-- `StrategyAgent._static_keyword_check`. -/
def static_keyword_check (cfg : Config) (message : Message) : Bool :=
  containsAny (lowerStr message.text) cfg.conversationEndKeywords

/-- `StrategyAgent._llm_detect_conversation_end`: without a client, fall
straight back to the static keyword check; with one, first apply the
hard active-ask override, then ask the LLM, falling back to the static
check if the call raises. -/
def llm_detect_conversation_end (llm : EndLLM) (cfg : Config)
    (message : Message) : Bool :=
  match llm with
  | .noClient => static_keyword_check cfg message
  | .raises =>
      if containsAny (lowerStr message.text) ACTIVE_SCAM_KEYWORDS then false
      else static_keyword_check cfg message
  | .answer yes =>
      if containsAny (lowerStr message.text) ACTIVE_SCAM_KEYWORDS then false
      else yes

/-- `StrategyAgent._determine_goal`. -/
def determine_goal (cfg : Config) (message : Message)
    (session : SessionState) (has_intelligence : Bool) : ConversationGoal :=
  let t := lowerStr message.text
  if ¬ has_intelligence ∨
      session.totalMessagesExchanged < cfg.minMessagesForCallback then
    if containsSubstr t "upi" ∨ containsSubstr t "upi id" then .CLARIFY
    else if containsSubstr t "link" ∨ containsSubstr t "click" ∨
        containsSubstr t "verify" then .CLARIFY
    else if containsSubstr t "urgent" ∨ containsSubstr t "immediately" then .DELAY
    else .CONTINUE
  else if has_intelligence ∧ session.totalMessagesExchanged ≥ 2 ∧
      (containsSubstr t "upi" ∨ containsSubstr t "send") then .ESCALATE
  else if session.totalMessagesExchanged < cfg.minMessagesForCallback then
    if containsSubstr t "upi" ∨ containsSubstr t "account" then .ESCALATE
    else .CONTINUE
  else .WRAP_UP

/-- `StrategyAgent._get_reasoning` (the `has_intelligence` argument is
accepted but unused, as in the source). -/
def get_reasoning (goal : ConversationGoal) (message : Message)
    (_has_intelligence : Bool) : String :=
  let t := lowerStr message.text
  match goal with
  | .CLARIFY =>
      if containsSubstr t "upi" then
        "Need to extract UPI ID - asking clarifying questions to delay"
      else if containsSubstr t "link" then
        "Phishing link detected - asking for more information"
      else
        "Need more intelligence - asking clarifying questions"
  | .DELAY =>
      "Creating delay to extract more intelligence while maintaining engagement"
  | .ESCALATE =>
      "Showing increased concern to maintain engagement and extract more intelligence"
  | .CONTINUE => "Continuing normal engagement to extract intelligence"
  | .WRAP_UP => "Sufficient intelligence gathered or conversation should end"

/-- `StrategyAgent.decide_strategy`: the two hard gates, goal selection,
and — only when the goal is already WRAP_UP and more than one message
was exchanged — the conversation-end sub-check (LLM-based when the
toggle is on, static keywords otherwise). -/
def decide_strategy (cfg : Config) (llm : EndLLM) (session : SessionState)
    (message : Message) : StrategyDecision :=
  if session.totalMessagesExchanged ≥ cfg.maxMessagesPerSession then
    ⟨false, .WRAP_UP, "Maximum messages per session reached"⟩
  else if ¬ session.scamDetected then
    ⟨false, .WRAP_UP, "No scam detected"⟩
  else
    let intelligence := session.extractedIntelligence
    let has_intelligence : Bool := decide
      (0 < intelligence.bankAccounts.length ∨
       0 < intelligence.upiIds.length ∨
       0 < intelligence.phishingLinks.length ∨
       0 < intelligence.phoneNumbers.length)
    let goal := determine_goal cfg message session has_intelligence
    let endEarly : Option StrategyDecision :=
      if goal = .WRAP_UP then
        if cfg.useLLMForConversationEnd ∧ session.totalMessagesExchanged > 1 then
          if llm_detect_conversation_end llm cfg message then
            some ⟨false, .WRAP_UP, "LLM detected conversation should end"⟩
          else none
        else if session.totalMessagesExchanged > 1 then
          if static_keyword_check cfg message then
            some ⟨false, .WRAP_UP, "Static keywords detected conversation should end"⟩
          else none
        else none
      else none
    match endEarly with
    | some d => d
    | none => ⟨true, goal, get_reasoning goal message has_intelligence⟩

/-! ## Response safety gate (`app/agents/safety_guard.py`,
`SafetyGuard.validate_response`) -/

/-- `SafetyGuard.validate_response`: the four denylists in source order
(each compared lowercased against the lowercased response), then the
length bounds; the first violation returns immediately. -/
def validate_response (response : String) : Bool × Option String :=
  let response_lower := lowerStr response
  match FORBIDDEN.find? (fun p => containsSubstr response_lower (lowerStr p)) with
  | some p => (false, some ("Response contains forbidden phrase: " ++ p))
  | none =>
  match META_PHRASES.find? (fun p => containsSubstr response_lower (lowerStr p)) with
  | some p => (false, some ("Response contains meta phrase: " ++ p))
  | none =>
  match PROHIBITED_RESPONSES.find?
      (fun p => containsSubstr response_lower (lowerStr p)) with
  | some p => (false, some ("Response contains prohibited phrase: " ++ p))
  | none =>
  match PROHIBITED_ACTIONS.find?
      (fun p => containsSubstr response_lower (lowerStr p)) with
  | some p => (false, some ("Response contains prohibited action: " ++ p))
  | none =>
  if response.length > 500 then
    (false, some "Response too long (max 500 characters)")
  else if response.length < 5 then
    (false, some "Response too short (min 5 characters)")
  else
    (true, none)

instance (old new : List Message) : Decidable (historyPreserved old new) :=
  inferInstanceAs (Decidable (new.take old.length = old))

/-- Re-merging the same increment changes no field as a set:
`((a ++ b).dedup ++ b).dedup` holds the same elements as `(a ++ b).dedup`. -/
theorem dedup_remerge_toFinset {α : Type} [DecidableEq α] (a b : List α) :
    ((a ++ b).dedup ++ b).dedup.toFinset = (a ++ b).dedup.toFinset := by
  ext x
  simp only [List.mem_toFinset, List.mem_dedup, List.mem_append]
  tauto

/-! ## Claims -/

/-- C1: report dispatch is idempotent per session.  After a
`send_callback` call that succeeds because the collector answered
200/201, any later `send_callback` call for the same session identifier
returns success without performing another outbound network call: the
two sequential calls make exactly one network call in total. -/
theorem send_callback_idempotent
    (sent : List String) (session session' : SessionState) (code : ℕ)
    (response₂ : CollectorResponse)
    (hfresh : session.sessionId ∉ sent)
    (hcode : code = 200 ∨ code = 201)
    (hsame : session'.sessionId = session.sessionId) :
    (send_callback sent session (.status code)).success = true ∧
    (send_callback sent session (.status code)).networkCalls = 1 ∧
    (send_callback (send_callback sent session (.status code)).sentCallbacks
        session' response₂).success = true ∧
    (send_callback (send_callback sent session (.status code)).sentCallbacks
        session' response₂).networkCalls = 0 := by
  have hfirst : send_callback sent session (.status code) =
      ⟨true, session.sessionId :: sent, { session with callbackSent := true }, 1⟩ := by
    simp [send_callback, hfresh, hcode]
  refine ⟨by rw [hfirst], by rw [hfirst], ?_, ?_⟩ <;>
    · rw [hfirst]
      simp [send_callback, hsame]

/-- C1 witness: a concrete fresh session, a 200 first response, and a
transport-error second response. -/
theorem send_callback_idempotent_witness :
    (send_callback [] { sessionId := "abc" } (.status 200)).success = true ∧
    (send_callback [] { sessionId := "abc" } (.status 200)).networkCalls = 1 ∧
    (send_callback (send_callback [] { sessionId := "abc" } (.status 200)).sentCallbacks
        { sessionId := "abc" } .transportError).success = true ∧
    (send_callback (send_callback [] { sessionId := "abc" } (.status 200)).sentCallbacks
        { sessionId := "abc" } .transportError).networkCalls = 0 :=
  send_callback_idempotent [] { sessionId := "abc" } { sessionId := "abc" }
    200 .transportError (by decide) (Or.inl rfl) rfl

/-- C3: phone normalization follows the four-step algorithm: the four
listed formats of the same number all normalize to `+919876543210`,
`12345` is silently excluded (`none`, not an error), and every accepted
input yields `+91` followed by the cleaned, country-code-stripped
10-character remainder whose first character is 6, 7, 8 or 9. -/
theorem phone_normalization_spec :
    normalize_phone "+91 98765-43210" = some "+919876543210" ∧
    normalize_phone "919876543210" = some "+919876543210" ∧
    normalize_phone "09876543210" = some "+919876543210" ∧
    normalize_phone "9876543210" = some "+919876543210" ∧
    normalize_phone "12345" = none ∧
    (∀ num r, normalize_phone num = some r →
      (stripCountryCode (cleanPhone num.toList)).length = 10 ∧
      leadDigitOk (stripCountryCode (cleanPhone num.toList)) = true ∧
      r = String.mk ('+' :: '9' :: '1' ::
            stripCountryCode (cleanPhone num.toList))) := by
  refine ⟨by decide, by decide, by decide, by decide, by decide, ?_⟩
  intro num r h
  simp only [normalize_phone] at h
  split at h
  · rename_i hcond
    exact ⟨hcond.1, hcond.2, (Option.some_injective _ h).symm⟩
  · exact absurd h (by simp)

/-- C3 witness: the general acceptance shape applied at `9876543210`. -/
theorem phone_normalization_spec_witness :
    (stripCountryCode (cleanPhone ("9876543210").toList)).length = 10 ∧
    leadDigitOk (stripCountryCode (cleanPhone ("9876543210").toList)) = true ∧
    "+919876543210" = String.mk ('+' :: '9' :: '1' ::
      stripCountryCode (cleanPhone ("9876543210").toList)) :=
  phone_normalization_spec.2.2.2.2.2 "9876543210" "+919876543210" (by decide)

/-- C4: the strategy hard gates.  Whenever the session has reached the
configured message cap, or is not classified malicious, `decide_strategy`
returns `should_engage = false` with goal `WRAP_UP`, for every message
and every LLM end-detector behaviour. -/
theorem strategy_hard_gates
    (cfg : Config) (llm : EndLLM) (session : SessionState) (message : Message)
    (h : cfg.maxMessagesPerSession ≤ session.totalMessagesExchanged ∨
      session.scamDetected = false) :
    (decide_strategy cfg llm session message).should_engage = false ∧
    (decide_strategy cfg llm session message).goal = .WRAP_UP := by
  unfold decide_strategy
  rcases h with h | h
  · rw [if_pos h]
    exact ⟨rfl, rfl⟩
  · by_cases hmax : session.totalMessagesExchanged ≥ cfg.maxMessagesPerSession
    · rw [if_pos hmax]
      exact ⟨rfl, rfl⟩
    · rw [if_neg hmax, if_pos (by simp [h])]
      exact ⟨rfl, rfl⟩

/-- C4 witness: a session exactly at the default cap of 50 messages,
with a scam verdict, on an arbitrary message. -/
theorem strategy_hard_gates_witness :
    (decide_strategy {} .noClient
      { sessionId := "s", scamDetected := true, totalMessagesExchanged := 50 }
      ⟨"scammer", "send your upi now", "t"⟩).should_engage = false ∧
    (decide_strategy {} .noClient
      { sessionId := "s", scamDetected := true, totalMessagesExchanged := 50 }
      ⟨"scammer", "send your upi now", "t"⟩).goal = .WRAP_UP :=
  strategy_hard_gates {} .noClient
    { sessionId := "s", scamDetected := true, totalMessagesExchanged := 50 }
    ⟨"scammer", "send your upi now", "t"⟩ (Or.inl (by decide))

/-- C10: the frame property of `update_session`.  Every call appends
exactly the new message to the history and increments the exchanged
counter by one; omitted optional arguments leave the scam verdict, the
confidence and the whole intelligence record unchanged; and
`conversationEnded` and `callbackSent` are untouched in every case. -/
theorem update_session_frame
    (session : SessionState) (message : Message) (now : ℕ)
    (sd : Option Bool) (sc : Option ℚ) (intel : Option ExtractedIntelligence) :
    (update_session session message now sd sc intel).conversationHistory =
      session.conversationHistory ++ [message] ∧
    (update_session session message now sd sc intel).totalMessagesExchanged =
      session.totalMessagesExchanged + 1 ∧
    (sd = none →
      (update_session session message now sd sc intel).scamDetected =
        session.scamDetected) ∧
    (sc = none →
      (update_session session message now sd sc intel).scamConfidence =
        session.scamConfidence) ∧
    (intel = none →
      (update_session session message now sd sc intel).extractedIntelligence =
        session.extractedIntelligence) ∧
    (update_session session message now sd sc intel).conversationEnded =
      session.conversationEnded ∧
    (update_session session message now sd sc intel).callbackSent =
      session.callbackSent := by
  cases sd <;> cases sc <;> cases intel <;>
    simp [update_session]

/-- C10 witness: the frame property applied to a concrete session with
all optional arguments omitted. -/
theorem update_session_frame_witness :
    (update_session { sessionId := "s", scamDetected := true }
        ⟨"scammer", "hi", "t"⟩ 7 none none none).conversationHistory =
      [(⟨"scammer", "hi", "t"⟩ : Message)] ∧
    (update_session { sessionId := "s", scamDetected := true }
        ⟨"scammer", "hi", "t"⟩ 7 none none none).scamDetected = true ∧
    (update_session { sessionId := "s", scamDetected := true }
        ⟨"scammer", "hi", "t"⟩ 7 none none none).callbackSent = false := by
  have h := update_session_frame { sessionId := "s", scamDetected := true }
    ⟨"scammer", "hi", "t"⟩ 7 none none none
  exact ⟨h.1, (h.2.2.1 rfl).trans rfl, h.2.2.2.2.2.2⟩

/-- C8: the five intelligence fields behave as sets.  Extracting twice
from the same input (extraction is a pure function, so both runs yield
the same record) and merging both results into a session gives exactly
the same set of elements per field as extracting and merging once, and
no merged field ever contains duplicates. -/
theorem intelligence_set_semantics
    (o : RegexFindOracles) (message : Message) (history : List Message)
    (session : SessionState) :
    (mergeIntelligence
        (mergeIntelligence session.extractedIntelligence
          (extract_intelligence o message history))
        (extract_intelligence o message history)).bankAccounts.toFinset =
      (mergeIntelligence session.extractedIntelligence
        (extract_intelligence o message history)).bankAccounts.toFinset ∧
    (mergeIntelligence
        (mergeIntelligence session.extractedIntelligence
          (extract_intelligence o message history))
        (extract_intelligence o message history)).upiIds.toFinset =
      (mergeIntelligence session.extractedIntelligence
        (extract_intelligence o message history)).upiIds.toFinset ∧
    (mergeIntelligence
        (mergeIntelligence session.extractedIntelligence
          (extract_intelligence o message history))
        (extract_intelligence o message history)).phishingLinks.toFinset =
      (mergeIntelligence session.extractedIntelligence
        (extract_intelligence o message history)).phishingLinks.toFinset ∧
    (mergeIntelligence
        (mergeIntelligence session.extractedIntelligence
          (extract_intelligence o message history))
        (extract_intelligence o message history)).phoneNumbers.toFinset =
      (mergeIntelligence session.extractedIntelligence
        (extract_intelligence o message history)).phoneNumbers.toFinset ∧
    (mergeIntelligence
        (mergeIntelligence session.extractedIntelligence
          (extract_intelligence o message history))
        (extract_intelligence o message history)).suspiciousKeywords.toFinset =
      (mergeIntelligence session.extractedIntelligence
        (extract_intelligence o message history)).suspiciousKeywords.toFinset ∧
    (mergeIntelligence
        (mergeIntelligence session.extractedIntelligence
          (extract_intelligence o message history))
        (extract_intelligence o message history)).bankAccounts.Nodup ∧
    (mergeIntelligence
        (mergeIntelligence session.extractedIntelligence
          (extract_intelligence o message history))
        (extract_intelligence o message history)).upiIds.Nodup ∧
    (mergeIntelligence
        (mergeIntelligence session.extractedIntelligence
          (extract_intelligence o message history))
        (extract_intelligence o message history)).phishingLinks.Nodup ∧
    (mergeIntelligence
        (mergeIntelligence session.extractedIntelligence
          (extract_intelligence o message history))
        (extract_intelligence o message history)).phoneNumbers.Nodup ∧
    (mergeIntelligence
        (mergeIntelligence session.extractedIntelligence
          (extract_intelligence o message history))
        (extract_intelligence o message history)).suspiciousKeywords.Nodup := by
  refine ⟨?_, ?_, ?_, ?_, ?_, ?_, ?_, ?_, ?_, ?_⟩ <;>
    simp only [mergeIntelligence] <;>
    first
      | exact dedup_remerge_toFinset _ _
      | exact List.nodup_dedup _

/-- C9 counterexample: `process_message` overwrites the stored history
with the request-supplied one (routes.py lines 76-78), so a session that
already holds one message, served a request carrying a different
history, loses its prior entry: the old history is not a prefix of the
new one. -/
theorem history_append_only_counterexample :
    (routes_session_update
        { sessionId := "s1",
          conversationHistory := [⟨"scammer", "hello", "t1"⟩],
          totalMessagesExchanged := 1 }
        [⟨"scammer", "offer", "t2"⟩] ⟨"scammer", "pay now", "t3"⟩ 2 true (9/10)
      ).conversationHistory =
      [⟨"scammer", "offer", "t2"⟩, ⟨"scammer", "pay now", "t3"⟩] ∧
    ¬ historyPreserved [⟨"scammer", "hello", "t1"⟩]
      (routes_session_update
        { sessionId := "s1",
          conversationHistory := [⟨"scammer", "hello", "t1"⟩],
          totalMessagesExchanged := 1 }
        [⟨"scammer", "offer", "t2"⟩] ⟨"scammer", "pay now", "t3"⟩ 2 true (9/10)
      ).conversationHistory := by
  decide

/-- C9 amended: `update_session` itself is append-only — the prior
history is always a prefix of the new one — and the full routes-level
update also preserves it whenever the inbound request carries an empty
`conversationHistory`; a non-empty request history instead replaces the
stored history before the append. -/
theorem history_append_only_amended :
    (∀ (session : SessionState) (message : Message) (now : ℕ)
        (sd : Option Bool) (sc : Option ℚ) (intel : Option ExtractedIntelligence),
      historyPreserved session.conversationHistory
        (update_session session message now sd sc intel).conversationHistory) ∧
    (∀ (session : SessionState) (message : Message) (now : ℕ)
        (b : Bool) (c : ℚ),
      historyPreserved session.conversationHistory
        (routes_session_update session [] message now b c).conversationHistory) := by
  have hupd : ∀ (session : SessionState) (message : Message) (now : ℕ)
      (sd : Option Bool) (sc : Option ℚ) (intel : Option ExtractedIntelligence),
      (update_session session message now sd sc intel).conversationHistory =
        session.conversationHistory ++ [message] := by
    intro session message now sd sc intel
    cases sd <;> cases sc <;> cases intel <;> simp [update_session]
  constructor
  · intro session message now sd sc intel
    rw [historyPreserved, hupd]
    exact List.take_left _ _
  · intro session message now b c
    rw [routes_session_update, routes_sync_history]
    simp only [List.isEmpty_nil, if_pos]
    rw [historyPreserved, hupd]
    exact List.take_left _ _

/-- C5: classification never surfaces an LLM failure.  For every message
and history, whenever the LLM classifier is unconfigured, errors out, or
returns malformed output (unparseable JSON, a non-dict, missing
`is_scam`/`confidence`, wrong types), `detect_scam` returns exactly the
rule-based fallback verdict, flagged `rule_based_fallback = true`. -/
theorem detect_scam_llm_failure_falls_back
    (groqConfigured : Bool) (llmResponse : LLMScamResponse) (o : RuleOracles)
    (cfg : Config) (message : Message) (history : List Message)
    (h : groqConfigured = false ∨ llmResponse.isDegenerate = true) :
    detect_scam groqConfigured llmResponse o cfg message history =
      rule_based_detection o cfg message history ∧
    (detect_scam groqConfigured llmResponse o cfg message history
      ).rule_based_fallback = true := by
  have heq : detect_scam groqConfigured llmResponse o cfg message history =
      rule_based_detection o cfg message history := by
    rcases h with h | h
    · simp [detect_scam, h]
    · cases llmResponse <;>
        simp_all [detect_scam, llm_detect_scam, LLMScamResponse.isDegenerate]
  exact ⟨heq, by rw [heq]; rfl⟩

/-- C5 witness: a configured classifier returning unparseable JSON on a
concrete message. -/
theorem detect_scam_llm_failure_falls_back_witness :
    detect_scam true .badJson
        ⟨fun _ => 0, fun _ => false, fun _ => false, fun _ => false,
          fun _ => false, fun _ => false⟩ {}
        ⟨"scammer", "your account is blocked", "t"⟩ [] =
      rule_based_detection
        ⟨fun _ => 0, fun _ => false, fun _ => false, fun _ => false,
          fun _ => false, fun _ => false⟩ {}
        ⟨"scammer", "your account is blocked", "t"⟩ [] ∧
    (detect_scam true .badJson
        ⟨fun _ => 0, fun _ => false, fun _ => false, fun _ => false,
          fun _ => false, fun _ => false⟩ {}
        ⟨"scammer", "your account is blocked", "t"⟩ []
      ).rule_based_fallback = true :=
  detect_scam_llm_failure_falls_back true .badJson
    ⟨fun _ => 0, fun _ => false, fun _ => false, fun _ => false,
      fun _ => false, fun _ => false⟩ {}
    ⟨"scammer", "your account is blocked", "t"⟩ [] (Or.inr rfl)

/-- C7: the response gate accepts exactly the texts that contain no
denylisted phrase (case-insensitively, over all four source denylists)
and whose length lies in [5, 500]; the denylists are checked before the
length bounds (a text violating both is reported with the denylist
reason); and `"I am an AI detection system"` is rejected with a
denylist-violation reason. -/
theorem response_gate_spec :
    (∀ text : String,
      (validate_response text).1 = true ↔
        ((∀ p ∈ FORBIDDEN ++ META_PHRASES ++ PROHIBITED_RESPONSES ++
            PROHIBITED_ACTIONS,
            containsSubstr (lowerStr text) (lowerStr p) = false) ∧
          5 ≤ text.length ∧ text.length ≤ 500)) ∧
    validate_response "I am an AI detection system" =
      (false, some "Response contains forbidden phrase: I am an AI") ∧
    validate_response (String.mk ('h' :: 'o' :: 'n' :: 'e' :: 'y' :: 'p' ::
        'o' :: 't' :: List.replicate 501 'a')) =
      (false, some "Response contains forbidden phrase: honeypot") := by
  refine ⟨?_, by decide, by decide⟩
  intro text
  simp only [validate_response]
  rcases h1 : FORBIDDEN.find?
      (fun p => containsSubstr (lowerStr text) (lowerStr p)) with _ | p
  · rcases h2 : META_PHRASES.find?
        (fun p => containsSubstr (lowerStr text) (lowerStr p)) with _ | p
    · rcases h3 : PROHIBITED_RESPONSES.find?
          (fun p => containsSubstr (lowerStr text) (lowerStr p)) with _ | p
      · rcases h4 : PROHIBITED_ACTIONS.find?
            (fun p => containsSubstr (lowerStr text) (lowerStr p)) with _ | p
        · have g1 := List.find?_eq_none.mp h1
          have g2 := List.find?_eq_none.mp h2
          have g3 := List.find?_eq_none.mp h3
          have g4 := List.find?_eq_none.mp h4
          split_ifs with hlong hshort
          · constructor
            · intro hx; exact absurd hx (by simp)
            · rintro ⟨-, -, hle⟩; omega
          · constructor
            · intro hx; exact absurd hx (by simp)
            · rintro ⟨-, hge, -⟩; omega
          · constructor
            · intro _
              refine ⟨?_, by omega, by omega⟩
              intro p hp
              simp only [List.mem_append] at hp
              rcases hp with ((hp | hp) | hp) | hp
              · exact Bool.eq_false_iff.mpr (fun hc => g1 p hp (by simpa using hc))
              · exact Bool.eq_false_iff.mpr (fun hc => g2 p hp (by simpa using hc))
              · exact Bool.eq_false_iff.mpr (fun hc => g3 p hp (by simpa using hc))
              · exact Bool.eq_false_iff.mpr (fun hc => g4 p hp (by simpa using hc))
            · intro _; rfl
        · constructor
          · intro hx; exact absurd hx (by simp)
          · rintro ⟨hall, -, -⟩
            have hp := List.find?_some h4
            have hmem := List.mem_of_find?_eq_some h4
            have hfalse := hall p (by
              simp only [List.mem_append]
              exact Or.inr hmem)
            simp only [hfalse] at hp
            exact absurd hp (by simp)
      · constructor
        · intro hx; exact absurd hx (by simp)
        · rintro ⟨hall, -, -⟩
          have hp := List.find?_some h3
          have hmem := List.mem_of_find?_eq_some h3
          have hfalse := hall p (by
            simp only [List.mem_append]
            exact Or.inl (Or.inr hmem))
          simp only [hfalse] at hp
          exact absurd hp (by simp)
    · constructor
      · intro hx; exact absurd hx (by simp)
      · rintro ⟨hall, -, -⟩
        have hp := List.find?_some h2
        have hmem := List.mem_of_find?_eq_some h2
        have hfalse := hall p (by
          simp only [List.mem_append]
          exact Or.inl (Or.inl (Or.inr hmem)))
        simp only [hfalse] at hp
        exact absurd hp (by simp)
  · constructor
    · intro hx; exact absurd hx (by simp)
    · rintro ⟨hall, -, -⟩
      have hp := List.find?_some h1
      have hmem := List.mem_of_find?_eq_some h1
      have hfalse := hall p (by
        simp only [List.mem_append]
        exact Or.inl (Or.inl (Or.inl hmem)))
      simp only [hfalse] at hp
      exact absurd hp (by simp)

/-- C7 witness: the acceptance characterization applied at a concrete
benign reply. -/
theorem response_gate_spec_witness :
    (validate_response "Why is my account blocked?").1 = true ↔
      ((∀ p ∈ FORBIDDEN ++ META_PHRASES ++ PROHIBITED_RESPONSES ++
          PROHIBITED_ACTIONS,
          containsSubstr (lowerStr "Why is my account blocked?") (lowerStr p) =
            false) ∧
        5 ≤ ("Why is my account blocked?" : String).length ∧
        ("Why is my account blocked?" : String).length ≤ 500) :=
  response_gate_spec.1 "Why is my account blocked?"

/-- Componentwise comparison of rule-trigger profiles: `m₂` fires every
category `m₁` fires, at least as often. -/
def RuleMatches.le (m₁ m₂ : RuleMatches) : Prop :=
  m₁.urgencyHits ≤ m₂.urgencyHits ∧
  m₁.keywordHits ≤ m₂.keywordHits ∧
  (m₁.rewardFound = true → m₂.rewardFound = true) ∧
  (m₁.rewardContact = true → m₂.rewardContact = true) ∧
  (m₁.bankingFound = true → m₂.bankingFound = true) ∧
  (m₁.phishingFound = true → m₂.phishingFound = true) ∧
  (m₁.sensitiveFound = true → m₂.sensitiveFound = true) ∧
  m₁.historyHits ≤ m₂.historyHits

instance (m₁ m₂ : RuleMatches) : Decidable (RuleMatches.le m₁ m₂) := by
  unfold RuleMatches.le
  infer_instance

theorem rule_score_nonneg (m : RuleMatches) : 0 ≤ rule_score m := by
  simp only [rule_score]
  refine le_min ?_ (by norm_num)
  have hns : ∀ (b : Bool) (q : ℚ), 0 ≤ q → (0:ℚ) ≤ if b then q else 0 := by
    intro b q hq
    cases b <;> simp [hq]
  refine add_nonneg (add_nonneg (add_nonneg (add_nonneg (add_nonneg
    (add_nonneg (add_nonneg ?_ ?_) ?_) ?_) ?_) ?_) ?_) ?_
  · exact le_min (by positivity) (by norm_num)
  · exact le_min (by positivity) (by norm_num)
  · exact hns _ _ (by norm_num)
  · split <;> norm_num
  · exact hns _ _ (by norm_num)
  · exact hns _ _ (by norm_num)
  · exact hns _ _ (by norm_num)
  · positivity

theorem rule_score_mono {m₁ m₂ : RuleMatches} (h : RuleMatches.le m₁ m₂) :
    rule_score m₁ ≤ rule_score m₂ := by
  obtain ⟨hu, hk, hr, hc, hb, hp, hs, hh⟩ := h
  simp only [rule_score]
  refine min_le_min ?_ le_rfl
  have t1 : min ((m₁.urgencyHits : ℚ) * (15/100)) (4/10) ≤
      min ((m₂.urgencyHits : ℚ) * (15/100)) (4/10) :=
    min_le_min (mul_le_mul_of_nonneg_right (Nat.cast_le.mpr hu) (by norm_num))
      le_rfl
  have t2 : min ((m₁.keywordHits : ℚ) * (2/10)) (4/10) ≤
      min ((m₂.keywordHits : ℚ) * (2/10)) (4/10) :=
    min_le_min (mul_le_mul_of_nonneg_right (Nat.cast_le.mpr hk) (by norm_num))
      le_rfl
  have e1 : (if m₁.rewardFound then (4:ℚ)/10 else 0) ≤
      (if m₂.rewardFound then (4:ℚ)/10 else 0) := by
    by_cases h1 : m₁.rewardFound = true
    · simp [h1, hr h1]
    · simp only [Bool.not_eq_true] at h1
      rw [h1, if_neg (by simp)]
      split <;> norm_num
  have e2 : (if m₁.rewardFound ∧ m₁.rewardContact then (3:ℚ)/10 else 0) ≤
      (if m₂.rewardFound ∧ m₂.rewardContact then (3:ℚ)/10 else 0) := by
    by_cases h1 : (m₁.rewardFound = true ∧ m₁.rewardContact = true)
    · rw [if_pos h1, if_pos ⟨hr h1.1, hc h1.2⟩]
    · rw [if_neg h1]
      split <;> norm_num
  have e3 : (if m₁.bankingFound then (1:ℚ)/10 else 0) ≤
      (if m₂.bankingFound then (1:ℚ)/10 else 0) := by
    by_cases h1 : m₁.bankingFound = true
    · simp [h1, hb h1]
    · simp only [Bool.not_eq_true] at h1
      rw [h1, if_neg (by simp)]
      split <;> norm_num
  have e4 : (if m₁.phishingFound then (3:ℚ)/10 else 0) ≤
      (if m₂.phishingFound then (3:ℚ)/10 else 0) := by
    by_cases h1 : m₁.phishingFound = true
    · simp [h1, hp h1]
    · simp only [Bool.not_eq_true] at h1
      rw [h1, if_neg (by simp)]
      split <;> norm_num
  have e5 : (if m₁.sensitiveFound then (2:ℚ)/10 else 0) ≤
      (if m₂.sensitiveFound then (2:ℚ)/10 else 0) := by
    by_cases h1 : m₁.sensitiveFound = true
    · simp [h1, hs h1]
    · simp only [Bool.not_eq_true] at h1
      rw [h1, if_neg (by simp)]
      split <;> norm_num
  have t8 : (m₁.historyHits : ℚ) * (1/10) ≤ (m₂.historyHits : ℚ) * (1/10) :=
    mul_le_mul_of_nonneg_right (Nat.cast_le.mpr hh) (by norm_num)
  exact add_le_add (add_le_add (add_le_add (add_le_add (add_le_add
    (add_le_add (add_le_add t1 t2) e1) e2) e3) e4) e5) t8

/-- C6: the rule-based score is always inside [0, 1], and it is
monotone in the trigger profile: whenever every scoring category that
fires for one input also fires (at least as often) for another, the
second input's score is at least the first's. -/
theorem rule_detection_bounds_and_monotone :
    (∀ (o : RuleOracles) (cfg : Config) (message : Message)
        (history : List Message),
      0 ≤ (rule_based_detection o cfg message history).confidence ∧
        (rule_based_detection o cfg message history).confidence ≤ 1) ∧
    (∀ (o₁ o₂ : RuleOracles) (cfg₁ cfg₂ : Config) (msg₁ msg₂ : Message)
        (hist₁ hist₂ : List Message),
      RuleMatches.le (ruleMatchesOf o₁ msg₁ hist₁) (ruleMatchesOf o₂ msg₂ hist₂) →
      (rule_based_detection o₁ cfg₁ msg₁ hist₁).confidence ≤
        (rule_based_detection o₂ cfg₂ msg₂ hist₂).confidence) := by
  constructor
  · intro o cfg message history
    exact ⟨rule_score_nonneg _, by simp only [rule_based_detection]; exact min_le_right _ _⟩
  · intro o₁ o₂ cfg₁ cfg₂ msg₁ msg₂ hist₁ hist₂ h
    exact rule_score_mono h

/-- C6 witness: adding the reward keyword `lottery` to a text (all other
categories unchanged) never lowers the rule score. -/
theorem rule_detection_monotone_witness :
    (rule_based_detection
        ⟨fun _ => 0, fun _ => false, fun _ => false, fun _ => false,
          fun _ => false, fun _ => false⟩ {}
        ⟨"scammer", "hello there", "t"⟩ []).confidence ≤
      (rule_based_detection
        ⟨fun _ => 0, fun _ => false, fun _ => false, fun _ => false,
          fun _ => false, fun _ => false⟩ {}
        ⟨"scammer", "hello there lottery", "t"⟩ []).confidence :=
  rule_detection_bounds_and_monotone.2
    ⟨fun _ => 0, fun _ => false, fun _ => false, fun _ => false,
      fun _ => false, fun _ => false⟩
    ⟨fun _ => 0, fun _ => false, fun _ => false, fun _ => false,
      fun _ => false, fun _ => false⟩ {} {}
    ⟨"scammer", "hello there", "t"⟩ ⟨"scammer", "hello there lottery", "t"⟩
    [] [] (by decide)

/-- C2 counterexample: the active-ask override lives only inside the
LLM branch of `_llm_detect_conversation_end`, after the client check.
With the LLM toggle on but no Groq client available, the static keyword
fallback runs without the override: the message
`"thanks, please verify"` contains the active-ask keyword `verify`,
yet the end sub-check fires on `thanks` and `decide_strategy` reports
the conversation ended (`should_engage = false`). -/
theorem conversation_end_override_counterexample :
    containsAny (lowerStr "thanks, please verify") ACTIVE_SCAM_KEYWORDS = true ∧
    (decide_strategy {} .noClient
      { sessionId := "s1",
        extractedIntelligence := { phoneNumbers := ["+919876543210"] },
        scamDetected := true, totalMessagesExchanged := 5 }
      ⟨"scammer", "thanks, please verify", "t"⟩).should_engage = false ∧
    (decide_strategy {} .noClient
      { sessionId := "s1",
        extractedIntelligence := { phoneNumbers := ["+919876543210"] },
        scamDetected := true, totalMessagesExchanged := 5 }
      ⟨"scammer", "thanks, please verify", "t"⟩).reasoning =
      "LLM detected conversation should end" := by
  refine ⟨by decide, ?_, ?_⟩ <;> decide

/-- C2 amended: the hard active-ask override holds on the LLM path.
Whenever the LLM end-detection toggle is on and a Groq client is
available (whether the call then answers or raises), a message
containing an active-ask keyword is never judged ended: if the two hard
gates pass, `decide_strategy` keeps engaging regardless of the LLM
answer.  (When the client is unavailable or the toggle is off, the
static keyword fallback runs without the override.) -/
theorem conversation_end_override_with_client
    (cfg : Config) (llm : EndLLM) (session : SessionState) (message : Message)
    (htoggle : cfg.useLLMForConversationEnd = true)
    (hclient : llm ≠ EndLLM.noClient)
    (hactive : containsAny (lowerStr message.text) ACTIVE_SCAM_KEYWORDS = true)
    (hcap : session.totalMessagesExchanged < cfg.maxMessagesPerSession)
    (hscam : session.scamDetected = true) :
    (decide_strategy cfg llm session message).should_engage = true := by
  have hend : llm_detect_conversation_end llm cfg message = false := by
    cases llm with
    | noClient => exact absurd rfl hclient
    | raises => simp [llm_detect_conversation_end, hactive]
    | answer yes => simp [llm_detect_conversation_end, hactive]
  simp only [decide_strategy]
  rw [if_neg (by omega), if_neg (by simp [hscam])]
  by_cases hwrap : determine_goal cfg message session (decide
      (0 < session.extractedIntelligence.bankAccounts.length ∨
       0 < session.extractedIntelligence.upiIds.length ∨
       0 < session.extractedIntelligence.phishingLinks.length ∨
       0 < session.extractedIntelligence.phoneNumbers.length)) =
      ConversationGoal.WRAP_UP <;>
    by_cases ht : session.totalMessagesExchanged > 1 <;>
    simp [hwrap, ht, htoggle, hend]


/-- C2 witness: with a client available and the LLM answering YES, a
message carrying the active-ask keyword `verify` still keeps the
engagement. -/
theorem conversation_end_override_with_client_witness :
    (decide_strategy {} (.answer true)
      { sessionId := "s2",
        extractedIntelligence := { phoneNumbers := ["+919876543210"] },
        scamDetected := true, totalMessagesExchanged := 5 }
      ⟨"scammer", "you must verify your account now", "t"⟩).should_engage =
      true :=
  conversation_end_override_with_client {} (.answer true)
    { sessionId := "s2",
      extractedIntelligence := { phoneNumbers := ["+919876543210"] },
      scamDetected := true, totalMessagesExchanged := 5 }
    ⟨"scammer", "you must verify your account now", "t"⟩
    rfl (by decide) (by decide) (by decide) rfl

end Honeypot
